import Mathlib

/-!
Shallow embedding of the tire-allocation engine of the naftal-tier backend:
the quota computation (src/utils/quotas.ts), the creation protocol and the
status-transition logic (src/modules/requests/requests.service.ts), and the
QR-based delivery path (src/modules/sellers/sellers.service.ts).

The relational store is modelled as lists of rows; the Redis cache as an
association list with leftmost-wins lookup (a SET prepends, so the newest
value shadows older ones).  Nondeterministic inputs of the source (the
generated request id, the random QR hash, the current year and the clock)
are passed as explicit parameters.  Each Prisma transaction is one Lean
function returning the result together with the post-commit database; a
thrown error inside a transaction returns the original database (rollback).
-/

namespace Naftal

/-- Tire category (`TireType` in the Prisma schema): `LEGER` or `LOURD`. -/
inductive TireType where
  | LEGER
  | LOURD
deriving DecidableEq

/-- Request status enum (`RequestStatus`): EN_ATTENTE (pending),
EN_PREPARATION (preparing), PRET (ready), LIVRE (delivered),
ANNULE (cancelled). -/
inductive RequestStatus where
  | EN_ATTENTE
  | EN_PREPARATION
  | PRET
  | LIVRE
  | ANNULE
deriving DecidableEq

/-- The slice of the `User` row the engine reads: id and `isVerified`. -/
structure User where
  id : String
  isVerified : Bool
deriving DecidableEq

/-- The slice of the `Tire` catalog row the engine reads: id and type. -/
structure Tire where
  id : String
  type : TireType
deriving DecidableEq

/-- A `StationInventory` row, keyed by (stationId, tireId). -/
structure StationInventory where
  stationId : String
  tireId : String
  quantity : Int
deriving DecidableEq

/-- A `TireRequest` row (the fields the engine reads or writes). -/
structure TireRequest where
  id : String
  userId : String
  tireId : String
  stationId : Option String
  status : RequestStatus
  qrCodeHash : String
  qrUsed : Bool
  year : Int
  quantity : Int
  deliveredAt : Option Int
deriving DecidableEq

/-- A `RequestStatusHistory` row appended on creation and on each transition. -/
structure RequestStatusEvent where
  requestId : String
  status : RequestStatus
  changedBy : String
  note : Option String
deriving DecidableEq

/-- A `Seller` row: the user account and the station it is assigned to. -/
structure Seller where
  userId : String
  stationId : String
deriving DecidableEq

/-- The relational store: the tables the engine touches. -/
structure Db where
  users : List User
  tires : List Tire
  stationInventory : List StationInventory
  tireRequests : List TireRequest
  statusHistory : List RequestStatusEvent
  sellers : List Seller
deriving DecidableEq

/-- The Redis mirror: entries (stationId, tireId, storedString); a SET
prepends, lookup takes the leftmost (newest) entry. -/
structure Cache where
  entries : List (String × String × String)
deriving DecidableEq

/-- `updateRedisStock` (requests.service.ts): store `newQuantity.toString()`
under the key built from stationId and tireId. -/
def updateRedisStock (cache : Cache) (stationId tireId : String) (newQuantity : Int) : Cache :=
  ⟨(stationId, tireId, toString newQuantity) :: cache.entries⟩

/-- Observation of the cache: the current value stored for a station/tire key. -/
def redisGet (entries : List (String × String × String)) (stationId tireId : String) :
    Option String :=
  match entries with
  | [] => none
  | e :: rest =>
    if e.1 = stationId ∧ e.2.1 = tireId then some e.2.2
    else redisGet rest stationId tireId

/-- `prisma.user.findUnique({ where: { id } })`. -/
def findUser (users : List User) (id : String) : Option User :=
  match users with
  | [] => none
  | u :: rest => if u.id = id then some u else findUser rest id

/-- `prisma.tire.findUnique({ where: { id } })`. -/
def findTire (tires : List Tire) (id : String) : Option Tire :=
  match tires with
  | [] => none
  | t :: rest => if t.id = id then some t else findTire rest id

/-- `prisma.stationInventory.findUnique({ where: { stationId_tireId } })`. -/
def findInventory (inv : List StationInventory) (stationId tireId : String) :
    Option StationInventory :=
  match inv with
  | [] => none
  | row :: rest =>
    if row.stationId = stationId ∧ row.tireId = tireId then some row
    else findInventory rest stationId tireId

/-- `prisma.tireRequest.findUnique({ where: { id } })`. -/
def findRequest (reqs : List TireRequest) (id : String) : Option TireRequest :=
  match reqs with
  | [] => none
  | r :: rest => if r.id = id then some r else findRequest rest id

/-- `prisma.tireRequest.findUnique({ where: { qrCodeHash } })`. -/
def findRequestByHash (reqs : List TireRequest) (qrHash : String) : Option TireRequest :=
  match reqs with
  | [] => none
  | r :: rest => if r.qrCodeHash = qrHash then some r else findRequestByHash rest qrHash

/-- `prisma.seller.findUnique({ where: { userId } })`. -/
def findSeller (sellers : List Seller) (userId : String) : Option Seller :=
  match sellers with
  | [] => none
  | s :: rest => if s.userId = userId then some s else findSeller rest userId

/-- The type of the tire referenced by a request, via the relation join
`tire: { type: tireType }` used in the quota aggregate. -/
def tireTypeOf (db : Db) (tireId : String) : Option TireType :=
  (findTire db.tires tireId).map Tire.type

/-! ### Quota module (src/utils/quotas.ts) -/

/-- One entry of the `quotaConfig` record. -/
structure QuotaConfig where
  maxPerYear : Int
  type : TireType
deriving DecidableEq

/-- The static `quotaConfig` record: LEGER capped at 4 per year, LOURD at 8. -/
def quotaConfig : TireType → QuotaConfig
  | .LEGER => ⟨4, .LEGER⟩
  | .LOURD => ⟨8, .LOURD⟩

/-- `quotaUtils.getMaxQuota`. -/
def getMaxQuota (t : TireType) : Int :=
  (quotaConfig t).maxPerYear

/-- The `where` filter of the quota aggregate: same user, same year, tire of
the given type, and status not LIVRE. -/
def quotaRowCounts (db : Db) (userId : String) (tireType : TireType) (year : Int)
    (r : TireRequest) : Prop :=
  r.userId = userId ∧ r.year = year ∧ tireTypeOf db r.tireId = some tireType ∧
    r.status ≠ RequestStatus.LIVRE

instance (db : Db) (userId : String) (tireType : TireType) (year : Int) (r : TireRequest) :
    Decidable (quotaRowCounts db userId tireType year r) := by
  unfold quotaRowCounts; infer_instance

/-- The `_sum: { quantity }` aggregate over rows passing the filter (an empty
aggregate is null in Prisma; the `|| 0` in the source turns it into 0, which
coincides with the empty sum). -/
def usedQuotaSum (db : Db) (userId : String) (tireType : TireType) (year : Int) :
    List TireRequest → Int
  | [] => 0
  | r :: rest =>
    (if quotaRowCounts db userId tireType year r then r.quantity else 0) +
      usedQuotaSum db userId tireType year rest

/-- Return shape of `checkQuotaAvailability`. -/
structure QuotaCheck where
  available : Bool
  remaining : Int
  used : Int
  max : Int
deriving DecidableEq

/-- `quotaUtils.checkQuotaAvailability`: max from the config, used from the
aggregate, `remaining = max - used`, `available = remaining >= requested`. -/
def checkQuotaAvailability (db : Db) (userId : String) (tireType : TireType)
    (requestedQuantity year : Int) : QuotaCheck :=
  let maxQuota := getMaxQuota tireType
  let used := usedQuotaSum db userId tireType year db.tireRequests
  let remaining := maxQuota - used
  let available := decide (requestedQuantity ≤ remaining)
  ⟨available, remaining, used, maxQuota⟩

/-! ### Engine errors

One constructor per distinct throw site the claims mention; each models the
`Error` the source throws with the corresponding message. -/

/-- Errors surfaced by the engine operations. -/
inductive EngineError where
  /-- createRequest: missing stationId. -/
  | stationRequired
  /-- createRequest: user missing or not verified. -/
  | notEligible
  /-- createRequest: tire definition not found. -/
  | itemNotFound
  /-- createRequest: quota exceeded (message carries remaining and type). -/
  | quotaExceeded (remaining : Int) (tireType : TireType)
  /-- createRequest: the conditional decrement matched no row. -/
  | outOfStock
  /-- updateRequestStatus: request not found. -/
  | requestNotFound
  /-- updateRequestStatus: `stationInventory.update` on a missing unique row
  (Prisma P2025), aborting the transaction. -/
  | inventoryRecordNotFound
  /-- SellersService: seller account not found. -/
  | sellerNotFound
  /-- completeDelivery: the validation error message rethrown. -/
  | qrInvalid (msg : String)
deriving DecidableEq

/-! ### createRequest (requests.service.ts) -/

/-- The parsed body of `createRequestSchema` (requests.schema.ts). -/
structure CreateRequestInput where
  tireId : String
  stationId : Option String
  quantity : Int
deriving DecidableEq

/-- The zod bounds on the parsed input: `quantity` is an integer in 1..4. -/
def validCreateInput (input : CreateRequestInput) : Prop :=
  1 ≤ input.quantity ∧ input.quantity ≤ 4

/-- The `stationInventory.updateMany` filter: matching key and
`quantity: { gte: quantity }`. -/
def reserveMatches (stationId tireId : String) (quantity : Int)
    (row : StationInventory) : Prop :=
  row.stationId = stationId ∧ row.tireId = tireId ∧ quantity ≤ row.quantity

instance (stationId tireId : String) (quantity : Int) (row : StationInventory) :
    Decidable (reserveMatches stationId tireId quantity row) := by
  unfold reserveMatches; infer_instance

/-- The conditional decrement `updateMany(... decrement: quantity)`: every
matching row is decremented; the second component is the affected-row
count the source inspects. -/
def applyReserve (stationId tireId : String) (quantity : Int) :
    List StationInventory → List StationInventory × Nat
  | [] => ([], 0)
  | row :: rest =>
    let step := applyReserve stationId tireId quantity rest
    if reserveMatches stationId tireId quantity row then
      ({ row with quantity := row.quantity - quantity } :: step.1, step.2 + 1)
    else
      (row :: step.1, step.2)

/-- Abstraction of `qrUtils.generateQRCodeImage`: the rendered artifact is a
function of the hash alone (the real value is a QRCode data URL produced by
an external library). -/
def generateQRCodeImage (hash : String) : String :=
  String.append "qr-image-of:" hash

/-- Quota figures in the createRequest response. -/
structure QuotaInfo where
  used : Int
  remaining : Int
  max : Int
deriving DecidableEq

/-- The value a successful `createRequest` resolves with:
`{ request, qrCodeImage, quotaInfo }`. -/
structure CreateSuccess where
  request : TireRequest
  qrCodeImage : String
  quotaInfo : QuotaInfo
deriving DecidableEq

/-- `RequestsService.createRequest`.  `currentYear` stands for
`new Date().getFullYear()`, `newRequestId` for the id Prisma generates for
the created row, and `qrHash` for the random hash `generateQRData` produces
from `crypto.randomUUID()` and a random token. -/
def createRequest (db : Db) (cache : Cache) (userId : String) (input : CreateRequestInput)
    (currentYear : Int) (newRequestId qrHash : String) :
    Except EngineError CreateSuccess × Db × Cache :=
  match input.stationId with
  | none => (.error .stationRequired, db, cache)
  | some stationId =>
    match findUser db.users userId with
    | none => (.error .notEligible, db, cache)
    | some user =>
      if user.isVerified then
        match findTire db.tires input.tireId with
        | none => (.error .itemNotFound, db, cache)
        | some tire =>
          let quotaCheck :=
            checkQuotaAvailability db userId tire.type input.quantity currentYear
          if quotaCheck.available then
            let reserved := applyReserve stationId input.tireId input.quantity
              db.stationInventory
            if reserved.2 = 0 then
              -- OUT_OF_STOCK: the transaction rolls back, the catch block
              -- writes 0 to Redis and rethrows.
              (.error .outOfStock, db, updateRedisStock cache stationId input.tireId 0)
            else
              let finalStockCount :=
                match findInventory reserved.1 stationId input.tireId with
                | some row => row.quantity
                | none => 0
              let request : TireRequest :=
                { id := newRequestId, userId := userId, tireId := input.tireId,
                  stationId := some stationId, status := .EN_ATTENTE,
                  qrCodeHash := qrHash, qrUsed := false, year := currentYear,
                  quantity := input.quantity, deliveredAt := none }
              let event : RequestStatusEvent :=
                { requestId := newRequestId, status := .EN_ATTENTE,
                  changedBy := userId, note := some "Request created" }
              let db2 : Db :=
                { db with stationInventory := reserved.1,
                          tireRequests := db.tireRequests ++ [request],
                          statusHistory := db.statusHistory ++ [event] }
              (.ok { request := request,
                     qrCodeImage := generateQRCodeImage qrHash,
                     quotaInfo :=
                       { used := quotaCheck.used + input.quantity,
                         remaining := quotaCheck.remaining - input.quantity,
                         max := quotaCheck.max } },
               db2,
               updateRedisStock cache stationId input.tireId finalStockCount)
          else
            (.error (.quotaExceeded quotaCheck.remaining tire.type), db, cache)
      else
        (.error .notEligible, db, cache)

/-! ### updateRequestStatus (requests.service.ts) -/

/-- `stationInventory.update({ where: stationId_tireId, data: { quantity:
{ increment: amount } } })`: updates the unique matching row, `none` when the
row does not exist (Prisma throws, aborting the transaction). -/
def incrementInventory (stationId tireId : String) (amount : Int) :
    List StationInventory → Option (List StationInventory)
  | [] => none
  | row :: rest =>
    if row.stationId = stationId ∧ row.tireId = tireId then
      some ({ row with quantity := row.quantity + amount } :: rest)
    else
      (incrementInventory stationId tireId amount rest).map (row :: ·)

/-- `tireRequest.update({ where: { id } })`: replace the unique row whose id
matches the updated record. -/
def setRequest (updated : TireRequest) : List TireRequest → List TireRequest
  | [] => []
  | r :: rest => if r.id = updated.id then updated :: rest else r :: setRequest updated rest

/-- `tireRequest.update({ where: { qrCodeHash } })`: replace the unique row
with the given hash. -/
def setRequestByHash (qrHash : String) (updated : TireRequest) :
    List TireRequest → List TireRequest
  | [] => []
  | r :: rest =>
    if r.qrCodeHash = qrHash then updated :: rest
    else r :: setRequestByHash qrHash updated rest

/-- The updated request row `tireRequest.update` writes: the new status, and
when delivering also the delivery timestamp and the consumed token flag
(the conditional spread `...(status === 'LIVRE' && {...})`). -/
def writeStatus (currentRequest : TireRequest) (status : RequestStatus) (now : Int) :
    TireRequest :=
  { currentRequest with
      status := status,
      deliveredAt :=
        if status = RequestStatus.LIVRE then some now else currentRequest.deliveredAt,
      qrUsed :=
        if status = RequestStatus.LIVRE then true else currentRequest.qrUsed }

/-- The tail of `updateRequestStatus` shared by every non-throwing path of
the restitution branch: write the updated row and the history event against
the (possibly restituted) inventory `inv1`, then — post-commit — mirror the
fresh stock into Redis when the request was cancelled and has a station. -/
def finishStatusUpdate (db : Db) (cache : Cache) (requestId : String)
    (status : RequestStatus) (changedBy : String) (note : Option String) (now : Int)
    (currentRequest : TireRequest) (inv1 : List StationInventory) :
    Except EngineError TireRequest × Db × Cache :=
  let updatedRequest := writeStatus currentRequest status now
  let event : RequestStatusEvent :=
    { requestId := requestId, status := status, changedBy := changedBy, note := note }
  let db1 : Db :=
    { db with stationInventory := inv1,
              tireRequests := setRequest updatedRequest db.tireRequests,
              statusHistory := db.statusHistory ++ [event] }
  let cache1 :=
    if status = RequestStatus.ANNULE then
      match updatedRequest.stationId with
      | some stationId =>
        match findInventory db1.stationInventory stationId updatedRequest.tireId with
        | some freshStock =>
          updateRedisStock cache stationId updatedRequest.tireId freshStock.quantity
        | none => cache
      | none => cache
    else cache
  (.ok updatedRequest, db1, cache1)

/-- `RequestsService.updateRequestStatus`.  `now` stands for `new Date()`.
Inside the transaction: load the request; if cancelling a not-yet-cancelled,
not-delivered request with a station assigned, increment that station's
stock by the request's quantity (a missing inventory row makes the update
throw, aborting the whole transaction); then write the new status and append
a history row; after commit, mirror fresh stock on cancellation. -/
def updateRequestStatus (db : Db) (cache : Cache) (requestId : String)
    (status : RequestStatus) (changedBy : String) (note : Option String) (now : Int) :
    Except EngineError TireRequest × Db × Cache :=
  match findRequest db.tireRequests requestId with
  | none => (.error .requestNotFound, db, cache)
  | some currentRequest =>
    if status = RequestStatus.ANNULE ∧ currentRequest.status ≠ RequestStatus.ANNULE ∧
        currentRequest.status ≠ RequestStatus.LIVRE then
      match currentRequest.stationId with
      | some stationId =>
        match incrementInventory stationId currentRequest.tireId
            currentRequest.quantity db.stationInventory with
        | some inv1 =>
          finishStatusUpdate db cache requestId status changedBy note now currentRequest inv1
        | none => (.error .inventoryRecordNotFound, db, cache)
      | none =>
        finishStatusUpdate db cache requestId status changedBy note now currentRequest
          db.stationInventory
    else
      finishStatusUpdate db cache requestId status changedBy note now currentRequest
        db.stationInventory

/-! ### QR validation and delivery (sellers.service.ts) -/

/-- Return shape of `validateQRCode`. -/
structure QRValidation where
  valid : Bool
  error : Option String
  request : Option TireRequest
deriving DecidableEq

/-- `SellersService.validateQRCode`: look the seller up, then the request by
hash, and check in order: request exists, token unused, status PRET, station
matches the seller's station. -/
def validateQRCode (db : Db) (sellerUserId qrHash : String) :
    Except EngineError QRValidation :=
  match findSeller db.sellers sellerUserId with
  | none => .error .sellerNotFound
  | some seller =>
    match findRequestByHash db.tireRequests qrHash with
    | none => .ok ⟨false, some "Invalid QR code - Request not found", none⟩
    | some request =>
      if request.qrUsed then
        .ok ⟨false, some "QR code has already been used", some request⟩
      else if request.status ≠ RequestStatus.PRET then
        .ok ⟨false, some "Request is not ready for delivery", some request⟩
      else if request.stationId ≠ some seller.stationId then
        .ok ⟨false, some "This request is assigned to a different station", some request⟩
      else
        .ok ⟨true, none, some request⟩

/-- `SellersService.completeDelivery`: validate the QR code; on failure throw
the validation error without touching the store; on success set the request
to LIVRE, consume the token, stamp `deliveredAt` and append a history row. -/
def completeDelivery (db : Db) (sellerUserId qrHash : String) (now : Int) :
    Except EngineError TireRequest × Db :=
  match validateQRCode db sellerUserId qrHash with
  | .error e => (.error e, db)
  | .ok validation =>
    if validation.valid then
      match findRequestByHash db.tireRequests qrHash with
      | none => (.error (.qrInvalid "Invalid QR code - Request not found"), db)
      | some request =>
        let updated : TireRequest :=
          { request with status := .LIVRE, qrUsed := true, deliveredAt := some now }
        let event : RequestStatusEvent :=
          { requestId := request.id, status := .LIVRE, changedBy := sellerUserId,
            note := some "Delivered via QR code scan" }
        (.ok updated,
         { db with tireRequests := setRequestByHash qrHash updated db.tireRequests,
                   statusHistory := db.statusHistory ++ [event] })
    else
      (.error (.qrInvalid (validation.error.getD "")), db)

/-! ### Observations and spec-side definitions -/

/-- The stock level the engine observes for a station/tire pair
(`inventory?.quantity || 0`: a missing row reads as 0, and a stored 0 also
reads as 0, so the two coincide for every integer value). -/
def stockLevel (db : Db) (stationId tireId : String) : Int :=
  match findInventory db.stationInventory stationId tireId with
  | some row => row.quantity
  | none => 0

/-- Invariant: no inventory row has a negative quantity. -/
def invNonneg (db : Db) : Prop :=
  ∀ row ∈ db.stationInventory, 0 ≤ row.quantity

/-- Invariant: no persisted request has a negative quantity (guaranteed at
creation by the zod bound `quantity >= 1`). -/
def requestQtyNonneg (db : Db) : Prop :=
  ∀ r ∈ db.tireRequests, 0 ≤ r.quantity

/-- Spec-side status filter for the quota sum: the claim's enumeration —
pending, preparing, ready and cancelled requests all count. -/
def specCountedStatus (s : RequestStatus) : Prop :=
  s = RequestStatus.EN_ATTENTE ∨ s = RequestStatus.EN_PREPARATION ∨
    s = RequestStatus.PRET ∨ s = RequestStatus.ANNULE

instance (s : RequestStatus) : Decidable (specCountedStatus s) := by
  unfold specCountedStatus; infer_instance

/-- Spec-side quota usage, written from the claim's words: the sum of the
quantities of the user's requests for that category and year whose status is
pending, preparing, ready or cancelled. -/
def specQuotaUsed (db : Db) (userId : String) (tireType : TireType) (year : Int) :
    List TireRequest → Int
  | [] => 0
  | r :: rest =>
    (if r.userId = userId ∧ r.year = year ∧ tireTypeOf db r.tireId = some tireType ∧
        specCountedStatus r.status then r.quantity else 0) +
      specQuotaUsed db userId tireType year rest

/-! ### Concrete fixtures for witnesses and counterexamples -/

/-- A small concrete store: one verified user, one LEGER and one LOURD tire,
stock 9 of t1 and 3 of t2 at station s1, one seller at s1. -/
def exDb : Db :=
  { users := [⟨"u1", true⟩, ⟨"u2", false⟩],
    tires := [⟨"t1", .LEGER⟩, ⟨"t2", .LOURD⟩],
    stationInventory := [⟨"s1", "t1", 9⟩, ⟨"s1", "t2", 3⟩],
    tireRequests := [],
    statusHistory := [],
    sellers := [⟨"sel1", "s1"⟩] }

/-- The empty cache. -/
def exCache : Cache := ⟨[]⟩

/-- A delivered request for 2 units of t1 at s1, token consumed. -/
def exDeliveredReq : TireRequest :=
  { id := "r1", userId := "u1", tireId := "t1", stationId := some "s1",
    status := .LIVRE, qrCodeHash := "h1", qrUsed := true, year := 2025,
    quantity := 2, deliveredAt := some 1 }

/-- A ready (PRET) request for 2 units of t1 at s1 with an unused token. -/
def exReadyReq : TireRequest :=
  { id := "r1", userId := "u1", tireId := "t1", stationId := some "s1",
    status := .PRET, qrCodeHash := "h1", qrUsed := false, year := 2025,
    quantity := 2, deliveredAt := none }

/-- A pending request for 2 units of t1 at s1. -/
def exPendingReq : TireRequest :=
  { id := "r1", userId := "u1", tireId := "t1", stationId := some "s1",
    status := .EN_ATTENTE, qrCodeHash := "h1", qrUsed := false, year := 2025,
    quantity := 2, deliveredAt := none }

/-- A pending request with no station assigned. -/
def exNoStationReq : TireRequest :=
  { id := "r1", userId := "u1", tireId := "t1", stationId := none,
    status := .EN_ATTENTE, qrCodeHash := "h1", qrUsed := false, year := 2025,
    quantity := 2, deliveredAt := none }

/-- A store holding a single delivered request for 2 units of t1 at s1. -/
def exDbDelivered : Db :=
  { users := [⟨"u1", true⟩],
    tires := [⟨"t1", .LEGER⟩],
    stationInventory := [⟨"s1", "t1", 5⟩],
    tireRequests := [exDeliveredReq],
    statusHistory := [],
    sellers := [⟨"sel1", "s1"⟩] }

/-- A store holding a single ready (PRET) request for 2 units of t1 at s1,
with an unused token. -/
def exDbReady : Db :=
  { users := [⟨"u1", true⟩],
    tires := [⟨"t1", .LEGER⟩],
    stationInventory := [⟨"s1", "t1", 5⟩],
    tireRequests := [exReadyReq],
    statusHistory := [],
    sellers := [⟨"sel1", "s1"⟩] }

/-- A store holding a single pending request for 2 units of t1 at s1. -/
def exDbPending : Db :=
  { users := [⟨"u1", true⟩],
    tires := [⟨"t1", .LEGER⟩],
    stationInventory := [⟨"s1", "t1", 7⟩],
    tireRequests := [exPendingReq],
    statusHistory := [],
    sellers := [⟨"sel1", "s1"⟩] }

/-- A store holding a single pending request with no station assigned. -/
def exDbNoStation : Db :=
  { users := [⟨"u1", true⟩],
    tires := [⟨"t1", .LEGER⟩],
    stationInventory := [⟨"s1", "t1", 7⟩],
    tireRequests := [exNoStationReq],
    statusHistory := [],
    sellers := [] }

/-! ### Helper lemmas -/

theorem applyReserve_count_zero (stationId tireId : String) (quantity : Int)
    (inv : List StationInventory)
    (h : ∀ row ∈ inv, ¬ reserveMatches stationId tireId quantity row) :
    applyReserve stationId tireId quantity inv = (inv, 0) := by
  induction inv with
  | nil => rfl
  | cons row rest ih =>
    have hrow := h row (List.mem_cons_self _ _)
    have hrest := ih fun r hr => h r (List.mem_cons_of_mem _ hr)
    simp [applyReserve, hrow, hrest]

theorem applyReserve_nonneg (stationId tireId : String) (quantity : Int)
    (inv : List StationInventory) (h : ∀ row ∈ inv, 0 ≤ row.quantity) :
    ∀ row ∈ (applyReserve stationId tireId quantity inv).1, 0 ≤ row.quantity := by
  induction inv with
  | nil => simp [applyReserve]
  | cons row rest ih =>
    have hrest := ih fun r hr => h r (List.mem_cons_of_mem _ hr)
    intro x hx
    by_cases hm : reserveMatches stationId tireId quantity row
    · simp [applyReserve, hm] at hx
      rcases hx with rfl | hx
      · exact sub_nonneg.mpr hm.2.2
      · exact hrest x hx
    · simp [applyReserve, hm] at hx
      rcases hx with rfl | hx
      · exact h _ (List.mem_cons_self _ _)
      · exact hrest x hx

theorem findRequest_mem {reqs : List TireRequest} {id : String} {r : TireRequest}
    (h : findRequest reqs id = some r) : r ∈ reqs := by
  induction reqs with
  | nil => simp [findRequest] at h
  | cons x rest ih =>
    by_cases hx : x.id = id
    · simp [findRequest, hx] at h
      exact h ▸ List.mem_cons_self _ _
    · simp only [findRequest, hx, if_false] at h
      exact List.mem_cons_of_mem _ (ih h)

theorem findRequest_id {reqs : List TireRequest} {id : String} {r : TireRequest}
    (h : findRequest reqs id = some r) : r.id = id := by
  induction reqs with
  | nil => simp [findRequest] at h
  | cons x rest ih =>
    by_cases hx : x.id = id
    · simp [findRequest, hx] at h
      exact h ▸ hx
    · simp only [findRequest, hx, if_false] at h
      exact ih h

theorem findRequest_setRequest {reqs : List TireRequest} {id : String}
    {r u : TireRequest} (h : findRequest reqs id = some r) (hu : u.id = id) :
    findRequest (setRequest u reqs) id = some u := by
  induction reqs with
  | nil => simp [findRequest] at h
  | cons x rest ih =>
    by_cases hx : x.id = id
    · have hxu : x.id = u.id := by rw [hu, hx]
      simp [setRequest, hxu, findRequest, hu]
    · have hxu : ¬ x.id = u.id := by rw [hu]; exact hx
      simp only [findRequest, hx, if_false] at h
      simp only [setRequest, hxu, if_false, findRequest, hx]
      exact ih h

theorem mem_setRequest {u : TireRequest} {reqs : List TireRequest} {x : TireRequest}
    (h : x ∈ setRequest u reqs) : x = u ∨ x ∈ reqs := by
  induction reqs with
  | nil => simp [setRequest] at h
  | cons r rest ih =>
    by_cases hr : r.id = u.id
    · simp [setRequest, hr] at h
      rcases h with rfl | h
      · exact Or.inl rfl
      · exact Or.inr (List.mem_cons_of_mem _ h)
    · simp only [setRequest, hr, if_false, List.mem_cons] at h
      rcases h with rfl | h
      · exact Or.inr (List.mem_cons_self _ _)
      · rcases ih h with h | h
        · exact Or.inl h
        · exact Or.inr (List.mem_cons_of_mem _ h)

theorem mem_setRequestByHash {qrHash : String} {u : TireRequest}
    {reqs : List TireRequest} {x : TireRequest}
    (h : x ∈ setRequestByHash qrHash u reqs) : x = u ∨ x ∈ reqs := by
  induction reqs with
  | nil => simp [setRequestByHash] at h
  | cons r rest ih =>
    by_cases hr : r.qrCodeHash = qrHash
    · simp [setRequestByHash, hr] at h
      rcases h with rfl | h
      · exact Or.inl rfl
      · exact Or.inr (List.mem_cons_of_mem _ h)
    · simp only [setRequestByHash, hr, if_false, List.mem_cons] at h
      rcases h with rfl | h
      · exact Or.inr (List.mem_cons_self _ _)
      · rcases ih h with h | h
        · exact Or.inl h
        · exact Or.inr (List.mem_cons_of_mem _ h)

theorem incrementInventory_of_find {inv : List StationInventory}
    {stationId tireId : String} {row : StationInventory} (amount : Int)
    (h : findInventory inv stationId tireId = some row) :
    ∃ inv2, incrementInventory stationId tireId amount inv = some inv2 ∧
      findInventory inv2 stationId tireId =
        some { row with quantity := row.quantity + amount } := by
  induction inv with
  | nil => simp [findInventory] at h
  | cons x rest ih =>
    simp only [findInventory] at h
    by_cases hx : x.stationId = stationId ∧ x.tireId = tireId
    · rw [if_pos hx] at h
      injection h with h
      subst h
      refine ⟨{ x with quantity := x.quantity + amount } :: rest, ?_, ?_⟩
      · simp only [incrementInventory]
        rw [if_pos hx]
      · simp only [findInventory]
        rw [if_pos hx]
    · rw [if_neg hx] at h
      obtain ⟨inv2, hi, hf⟩ := ih h
      refine ⟨x :: inv2, ?_, ?_⟩
      · simp only [incrementInventory]
        rw [if_neg hx, hi]
        rfl
      · simp only [findInventory]
        rw [if_neg hx]
        exact hf

theorem incrementInventory_nonneg {stationId tireId : String} {amount : Int}
    {inv inv2 : List StationInventory}
    (h : incrementInventory stationId tireId amount inv = some inv2)
    (hnn : ∀ row ∈ inv, 0 ≤ row.quantity) (hamt : 0 ≤ amount) :
    ∀ row ∈ inv2, 0 ≤ row.quantity := by
  induction inv generalizing inv2 with
  | nil => simp [incrementInventory] at h
  | cons x rest ih =>
    simp only [incrementInventory] at h
    by_cases hx : x.stationId = stationId ∧ x.tireId = tireId
    · rw [if_pos hx] at h
      injection h with h
      subst h
      intro row hrow
      rcases List.mem_cons.mp hrow with rfl | hr
      · exact add_nonneg (hnn x (List.mem_cons_self _ _)) hamt
      · exact hnn row (List.mem_cons_of_mem _ hr)
    · rw [if_neg hx] at h
      obtain ⟨l, hl, rfl⟩ := Option.map_eq_some'.mp h
      intro row hrow
      rcases List.mem_cons.mp hrow with rfl | hr
      · exact hnn row (List.mem_cons_self _ _)
      · exact ih hl (fun r hr2 => hnn r (List.mem_cons_of_mem _ hr2)) row hr

theorem redisGet_updateRedisStock (cache : Cache) (stationId tireId : String)
    (v : Int) :
    redisGet (updateRedisStock cache stationId tireId v).entries stationId tireId =
      some (toString v) := by
  simp [updateRedisStock, redisGet]

theorem findRequestByHash_mem {reqs : List TireRequest} {qrHash : String}
    {r : TireRequest} (h : findRequestByHash reqs qrHash = some r) : r ∈ reqs := by
  induction reqs with
  | nil => simp [findRequestByHash] at h
  | cons x rest ih =>
    by_cases hx : x.qrCodeHash = qrHash
    · simp [findRequestByHash, hx] at h
      exact h ▸ List.mem_cons_self _ _
    · simp only [findRequestByHash, hx, if_false] at h
      exact List.mem_cons_of_mem _ (ih h)

theorem finishStatusUpdate_nonneg (db : Db) (cache : Cache) (requestId : String)
    (status : RequestStatus) (changedBy : String) (note : Option String) (now : Int)
    (currentRequest : TireRequest) (inv1 : List StationInventory)
    (hinv1 : ∀ row ∈ inv1, 0 ≤ row.quantity) (hreq : requestQtyNonneg db)
    (hcq : 0 ≤ currentRequest.quantity) :
    invNonneg (finishStatusUpdate db cache requestId status changedBy note now
        currentRequest inv1).2.1 ∧
      requestQtyNonneg (finishStatusUpdate db cache requestId status changedBy note now
        currentRequest inv1).2.1 := by
  constructor
  · intro row hrow
    exact hinv1 row hrow
  · intro r hr
    rcases mem_setRequest hr with rfl | hr
    · exact hcq
    · exact hreq r hr

theorem not_LIVRE_iff_specCounted (s : RequestStatus) :
    s ≠ RequestStatus.LIVRE ↔ specCountedStatus s := by
  cases s <;> simp [specCountedStatus]

theorem quotaRowCounts_iff (db : Db) (userId : String) (tireType : TireType)
    (year : Int) (r : TireRequest) :
    quotaRowCounts db userId tireType year r ↔
      r.userId = userId ∧ r.year = year ∧ tireTypeOf db r.tireId = some tireType ∧
        specCountedStatus r.status := by
  unfold quotaRowCounts
  rw [not_LIVRE_iff_specCounted]

theorem usedQuotaSum_eq_spec (db : Db) (userId : String) (tireType : TireType)
    (year : Int) (reqs : List TireRequest) :
    usedQuotaSum db userId tireType year reqs =
      specQuotaUsed db userId tireType year reqs := by
  induction reqs with
  | nil => rfl
  | cons r rest ih =>
    simp only [usedQuotaSum, specQuotaUsed, ih]
    congr 1
    rw [if_congr (quotaRowCounts_iff db userId tireType year r) rfl rfl]

/-! ### Claim theorems -/

/-- C6: `checkQuotaAvailability` returns `used` equal to the sum of the
quantities of the user's requests for that category and year whose status is
pending, preparing, ready or cancelled (everything except delivered),
`remaining = max - used`, `available` exactly when the requested quantity
fits into `max - used`, and `max` is 4 for LEGER and 8 for LOURD. -/
theorem checkQuotaAvailability_spec (db : Db) (userId : String) (tireType : TireType)
    (requestedQuantity year : Int) :
    (checkQuotaAvailability db userId tireType requestedQuantity year).used =
        specQuotaUsed db userId tireType year db.tireRequests ∧
      (checkQuotaAvailability db userId tireType requestedQuantity year).remaining =
        (checkQuotaAvailability db userId tireType requestedQuantity year).max -
          (checkQuotaAvailability db userId tireType requestedQuantity year).used ∧
      ((checkQuotaAvailability db userId tireType requestedQuantity year).available = true ↔
        requestedQuantity ≤
          (checkQuotaAvailability db userId tireType requestedQuantity year).max -
            (checkQuotaAvailability db userId tireType requestedQuantity year).used) ∧
      (checkQuotaAvailability db userId tireType requestedQuantity year).max =
        (if tireType = TireType.LEGER then 4 else 8) := by
  refine ⟨usedQuotaSum_eq_spec db userId tireType year db.tireRequests, rfl, ?_, ?_⟩
  · simp [checkQuotaAvailability]
  · cases tireType <;> rfl

theorem createRequest_oos (db : Db) (cache : Cache) (userId : String)
    (input : CreateRequestInput) (currentYear : Int) (newRequestId qrHash : String)
    (stationId : String) (user : User) (tire : Tire)
    (hst : input.stationId = some stationId)
    (hu : findUser db.users userId = some user)
    (hver : user.isVerified = true)
    (ht : findTire db.tires input.tireId = some tire)
    (hq : (checkQuotaAvailability db userId tire.type input.quantity
      currentYear).available = true)
    (hins : ∀ row ∈ db.stationInventory,
      ¬ reserveMatches stationId input.tireId input.quantity row) :
    createRequest db cache userId input currentYear newRequestId qrHash =
      (.error .outOfStock, db, updateRedisStock cache stationId input.tireId 0) := by
  have hres := applyReserve_count_zero stationId input.tireId input.quantity
    db.stationInventory hins
  simp [createRequest, hst, hu, ht, hver, hq, hres]

/-- C2: when every inventory row for the station/item key is insufficient
(in particular when the row is absent), a `createRequest` call that passed
all earlier preconditions fails with OutOfStock and the database is exactly
the one before the call: no TireRequest row, no RequestStatusEvent row, no
implicitly created inventory row, and no stock quantity changed. -/
theorem createRequest_outOfStock_atomic (db : Db) (cache : Cache) (userId : String)
    (input : CreateRequestInput) (currentYear : Int) (newRequestId qrHash : String)
    (stationId : String) (user : User) (tire : Tire)
    (hst : input.stationId = some stationId)
    (hu : findUser db.users userId = some user)
    (hver : user.isVerified = true)
    (ht : findTire db.tires input.tireId = some tire)
    (hq : (checkQuotaAvailability db userId tire.type input.quantity
      currentYear).available = true)
    (hins : ∀ row ∈ db.stationInventory,
      ¬ reserveMatches stationId input.tireId input.quantity row) :
    (createRequest db cache userId input currentYear newRequestId qrHash).1 =
        .error .outOfStock ∧
      (createRequest db cache userId input currentYear newRequestId qrHash).2.1 = db := by
  rw [createRequest_oos db cache userId input currentYear newRequestId qrHash
    stationId user tire hst hu hver ht hq hins]
  exact ⟨rfl, rfl⟩

theorem createRequest_outOfStock_atomic_witness :
    (createRequest exDb exCache "u1" ⟨"t2", some "s1", 4⟩ 2025 "r9" "h9").1 =
        .error .outOfStock ∧
      (createRequest exDb exCache "u1" ⟨"t2", some "s1", 4⟩ 2025 "r9" "h9").2.1 = exDb :=
  createRequest_outOfStock_atomic exDb exCache "u1" ⟨"t2", some "s1", 4⟩ 2025 "r9" "h9"
    "s1" ⟨"u1", true⟩ ⟨"t2", .LOURD⟩ (by decide) (by decide) (by decide) (by decide)
    (by decide) (by decide)

/-- C9: a `createRequest` call that fails with OutOfStock overwrites the
cache entry for the station/tire pair with the string "0" even though the
authoritative stock quantities are untouched — in particular even when
positive stock remains but was merely insufficient (see the witness, where
3 units remain). -/
theorem createRequest_outOfStock_cache_zero (db : Db) (cache : Cache) (userId : String)
    (input : CreateRequestInput) (currentYear : Int) (newRequestId qrHash : String)
    (stationId : String) (user : User) (tire : Tire)
    (hst : input.stationId = some stationId)
    (hu : findUser db.users userId = some user)
    (hver : user.isVerified = true)
    (ht : findTire db.tires input.tireId = some tire)
    (hq : (checkQuotaAvailability db userId tire.type input.quantity
      currentYear).available = true)
    (hins : ∀ row ∈ db.stationInventory,
      ¬ reserveMatches stationId input.tireId input.quantity row) :
    (createRequest db cache userId input currentYear newRequestId qrHash).1 =
        .error .outOfStock ∧
      redisGet (createRequest db cache userId input currentYear
          newRequestId qrHash).2.2.entries stationId input.tireId = some "0" ∧
      (createRequest db cache userId input currentYear newRequestId qrHash).2.1 = db := by
  rw [createRequest_oos db cache userId input currentYear newRequestId qrHash
    stationId user tire hst hu hver ht hq hins]
  refine ⟨rfl, ?_, rfl⟩
  rw [redisGet_updateRedisStock]
  decide

theorem createRequest_outOfStock_cache_zero_witness :
    ((createRequest exDb exCache "u1" ⟨"t2", some "s1", 4⟩ 2025 "r9" "h9").1 =
        .error .outOfStock ∧
      redisGet (createRequest exDb exCache "u1" ⟨"t2", some "s1", 4⟩
          2025 "r9" "h9").2.2.entries "s1" "t2" = some "0" ∧
      (createRequest exDb exCache "u1" ⟨"t2", some "s1", 4⟩ 2025 "r9" "h9").2.1 = exDb) ∧
      findInventory (createRequest exDb exCache "u1" ⟨"t2", some "s1", 4⟩
          2025 "r9" "h9").2.1.stationInventory "s1" "t2" = some ⟨"s1", "t2", 3⟩ :=
  ⟨createRequest_outOfStock_cache_zero exDb exCache "u1" ⟨"t2", some "s1", 4⟩ 2025
      "r9" "h9" "s1" ⟨"u1", true⟩ ⟨"t2", .LOURD⟩ (by decide) (by decide) (by decide)
      (by decide) (by decide) (by decide),
    by decide⟩

/-- C7: the precondition failures of `createRequest` are checked before any
state mutation and have no side effects: a missing stationId fails
StationRequired, a missing or unverified user fails NotEligible, and a
non-existent tire fails ItemNotFound; in each case the database and the
cache are returned unchanged. -/
theorem createRequest_precondition_failures :
    (∀ db cache userId input currentYear newRequestId qrHash,
      input.stationId = none →
      createRequest db cache userId input currentYear newRequestId qrHash =
        (.error .stationRequired, db, cache)) ∧
    (∀ db cache userId input currentYear newRequestId qrHash stationId,
      input.stationId = some stationId →
      findUser db.users userId = none →
      createRequest db cache userId input currentYear newRequestId qrHash =
        (.error .notEligible, db, cache)) ∧
    (∀ db cache userId input currentYear newRequestId qrHash stationId user,
      input.stationId = some stationId →
      findUser db.users userId = some user →
      user.isVerified = false →
      createRequest db cache userId input currentYear newRequestId qrHash =
        (.error .notEligible, db, cache)) ∧
    (∀ db cache userId input currentYear newRequestId qrHash stationId user,
      input.stationId = some stationId →
      findUser db.users userId = some user →
      user.isVerified = true →
      findTire db.tires input.tireId = none →
      createRequest db cache userId input currentYear newRequestId qrHash =
        (.error .itemNotFound, db, cache)) := by
  refine ⟨?_, ?_, ?_, ?_⟩
  · intro db cache userId input currentYear newRequestId qrHash hst
    simp [createRequest, hst]
  · intro db cache userId input currentYear newRequestId qrHash stationId hst hu
    simp [createRequest, hst, hu]
  · intro db cache userId input currentYear newRequestId qrHash stationId user hst hu hver
    simp [createRequest, hst, hu, hver]
  · intro db cache userId input currentYear newRequestId qrHash stationId user hst hu
      hver ht
    simp [createRequest, hst, hu, hver, ht]

theorem createRequest_precondition_failures_witness :
    (createRequest exDb exCache "u1" ⟨"t1", none, 1⟩ 2025 "r9" "h9" =
        (.error .stationRequired, exDb, exCache)) ∧
      (createRequest exDb exCache "ghost" ⟨"t1", some "s1", 1⟩ 2025 "r9" "h9" =
        (.error .notEligible, exDb, exCache)) ∧
      (createRequest exDb exCache "u2" ⟨"t1", some "s1", 1⟩ 2025 "r9" "h9" =
        (.error .notEligible, exDb, exCache)) ∧
      (createRequest exDb exCache "u1" ⟨"t9", some "s1", 1⟩ 2025 "r9" "h9" =
        (.error .itemNotFound, exDb, exCache)) :=
  ⟨createRequest_precondition_failures.1 exDb exCache "u1" ⟨"t1", none, 1⟩ 2025
      "r9" "h9" (by decide),
    createRequest_precondition_failures.2.1 exDb exCache "ghost" ⟨"t1", some "s1", 1⟩
      2025 "r9" "h9" "s1" (by decide) (by decide),
    createRequest_precondition_failures.2.2.1 exDb exCache "u2" ⟨"t1", some "s1", 1⟩
      2025 "r9" "h9" "s1" ⟨"u2", false⟩ (by decide) (by decide) (by decide),
    createRequest_precondition_failures.2.2.2 exDb exCache "u1" ⟨"t9", some "s1", 1⟩
      2025 "r9" "h9" "s1" ⟨"u1", true⟩ (by decide) (by decide) (by decide) (by decide)⟩

/-- The value a successful run of `createRequest exDb exCache "u1"
⟨"t1", some "s1", 2⟩ 2025 "r1" "h1"` resolves with. -/
def exCreateResult : CreateSuccess :=
  { request :=
      { id := "r1", userId := "u1", tireId := "t1", stationId := some "s1",
        status := .EN_ATTENTE, qrCodeHash := "h1", qrUsed := false, year := 2025,
        quantity := 2, deliveredAt := none },
    qrCodeImage := generateQRCodeImage "h1",
    quotaInfo := { used := 2, remaining := 2, max := 4 } }

/-- C8 counterexample: a successful `createRequest` run (stock 9, request 2,
post-reservation stock 7) returns exactly `{request, qrCodeImage, quotaInfo}`
and no numeric component of that returned value equals the post-reservation
remaining stock 7 — the remaining stock is not part of the return value. -/
theorem createRequest_return_lacks_stock_cex :
    (createRequest exDb exCache "u1" ⟨"t1", some "s1", 2⟩ 2025 "r1" "h1").1 =
        .ok exCreateResult ∧
      stockLevel (createRequest exDb exCache "u1" ⟨"t1", some "s1", 2⟩
        2025 "r1" "h1").2.1 "s1" "t1" = 7 ∧
      exCreateResult.quotaInfo.used ≠ 7 ∧
      exCreateResult.quotaInfo.remaining ≠ 7 ∧
      exCreateResult.quotaInfo.max ≠ 7 ∧
      exCreateResult.request.quantity ≠ 7 ∧
      exCreateResult.request.year ≠ 7 :=
  ⟨rfl, rfl, by decide, by decide, by decide, by decide, by decide⟩

/-- C8 (amended): a successful `createRequest` call persists the request in
the PENDING (EN_ATTENTE) initial status together with its initial
RequestStatusEvent, and returns the created request and quota figures
computed as `used = previousUsed + qty` and `remaining = max - used`; the
post-reservation remaining stock is not returned but pushed to the cache
mirror. -/
theorem createRequest_success_shape (db : Db) (cache : Cache) (userId : String)
    (input : CreateRequestInput) (currentYear : Int) (newRequestId qrHash : String)
    (stationId : String) (user : User) (tire : Tire)
    (hst : input.stationId = some stationId)
    (hu : findUser db.users userId = some user)
    (hver : user.isVerified = true)
    (ht : findTire db.tires input.tireId = some tire)
    (hq : (checkQuotaAvailability db userId tire.type input.quantity
      currentYear).available = true)
    (hres : (applyReserve stationId input.tireId input.quantity
      db.stationInventory).2 ≠ 0) :
    ∃ res, (createRequest db cache userId input currentYear newRequestId qrHash).1 =
        .ok res ∧
      res.request.status = RequestStatus.EN_ATTENTE ∧
      res.request ∈
        (createRequest db cache userId input currentYear newRequestId qrHash).2.1.tireRequests ∧
      ({ requestId := newRequestId, status := .EN_ATTENTE, changedBy := userId,
          note := some "Request created" } : RequestStatusEvent) ∈
        (createRequest db cache userId input currentYear newRequestId qrHash).2.1.statusHistory ∧
      res.quotaInfo.used =
        (checkQuotaAvailability db userId tire.type input.quantity currentYear).used +
          input.quantity ∧
      res.quotaInfo.max =
        (checkQuotaAvailability db userId tire.type input.quantity currentYear).max ∧
      res.quotaInfo.remaining = res.quotaInfo.max - res.quotaInfo.used ∧
      redisGet (createRequest db cache userId input currentYear
          newRequestId qrHash).2.2.entries stationId input.tireId =
        some (toString (stockLevel (createRequest db cache userId input currentYear
          newRequestId qrHash).2.1 stationId input.tireId)) := by
  simp only [createRequest, hst, hu, ht, hver, hq, if_true, hres, if_false]
  refine ⟨_, rfl, rfl, ?_, ?_, rfl, rfl, ?_, ?_⟩
  · exact List.mem_append_right _ (List.mem_singleton_self _)
  · exact List.mem_append_right _ (List.mem_singleton_self _)
  · simp [checkQuotaAvailability]
    ring
  · rw [redisGet_updateRedisStock]
    rfl

theorem createRequest_success_shape_witness :
    ∃ res, (createRequest exDb exCache "u1" ⟨"t1", some "s1", 2⟩ 2025 "r1" "h1").1 =
        .ok res ∧
      res.request.status = RequestStatus.EN_ATTENTE ∧
      res.request ∈
        (createRequest exDb exCache "u1" ⟨"t1", some "s1", 2⟩ 2025 "r1" "h1").2.1.tireRequests ∧
      ({ requestId := "r1", status := .EN_ATTENTE, changedBy := "u1",
          note := some "Request created" } : RequestStatusEvent) ∈
        (createRequest exDb exCache "u1" ⟨"t1", some "s1", 2⟩ 2025 "r1" "h1").2.1.statusHistory ∧
      res.quotaInfo.used =
        (checkQuotaAvailability exDb "u1" TireType.LEGER 2 2025).used + 2 ∧
      res.quotaInfo.max =
        (checkQuotaAvailability exDb "u1" TireType.LEGER 2 2025).max ∧
      res.quotaInfo.remaining = res.quotaInfo.max - res.quotaInfo.used ∧
      redisGet (createRequest exDb exCache "u1" ⟨"t1", some "s1", 2⟩
          2025 "r1" "h1").2.2.entries "s1" "t1" =
        some (toString (stockLevel (createRequest exDb exCache "u1" ⟨"t1", some "s1", 2⟩
          2025 "r1" "h1").2.1 "s1" "t1")) :=
  createRequest_success_shape exDb exCache "u1" ⟨"t1", some "s1", 2⟩ 2025 "r1" "h1"
    "s1" ⟨"u1", true⟩ ⟨"t1", .LEGER⟩ (by decide) (by decide) (by decide) (by decide)
    (by decide) (by decide)

/-- C1: every mutating operation of the engine preserves non-negativity of
all inventory quantities (together with non-negativity of the persisted
request quantities, which the zod bound `quantity >= 1` establishes at
creation): the only decrement is the conditional update inside
`createRequest`, which touches only rows whose current quantity is at least
the requested quantity, and the only other stock mutation is the restitution
increment on cancellation. -/
theorem engine_preserves_nonneg_stock :
    (∀ db cache userId input currentYear newRequestId qrHash,
      invNonneg db → requestQtyNonneg db → 0 ≤ input.quantity →
      invNonneg (createRequest db cache userId input currentYear
          newRequestId qrHash).2.1 ∧
        requestQtyNonneg (createRequest db cache userId input currentYear
          newRequestId qrHash).2.1) ∧
    (∀ db cache requestId status changedBy note now,
      invNonneg db → requestQtyNonneg db →
      invNonneg (updateRequestStatus db cache requestId status
          changedBy note now).2.1 ∧
        requestQtyNonneg (updateRequestStatus db cache requestId status
          changedBy note now).2.1) ∧
    (∀ db sellerUserId qrHash now,
      invNonneg db → requestQtyNonneg db →
      invNonneg (completeDelivery db sellerUserId qrHash now).2 ∧
        requestQtyNonneg (completeDelivery db sellerUserId qrHash now).2) := by
  refine ⟨?_, ?_, ?_⟩
  · intro db cache userId input currentYear newRequestId qrHash hinv hreq hq
    cases hst : input.stationId with
    | none => simp only [createRequest, hst]; exact ⟨hinv, hreq⟩
    | some stationId =>
      cases hu : findUser db.users userId with
      | none => simp only [createRequest, hst, hu]; exact ⟨hinv, hreq⟩
      | some user =>
        by_cases hver : user.isVerified = true
        · cases ht : findTire db.tires input.tireId with
          | none => simp only [createRequest, hst, hu, ht, hver, if_true]
                    exact ⟨hinv, hreq⟩
          | some tire =>
            by_cases hqa : (checkQuotaAvailability db userId tire.type input.quantity
                currentYear).available = true
            · by_cases hz : (applyReserve stationId input.tireId input.quantity
                  db.stationInventory).2 = 0
              · simp only [createRequest, hst, hu, ht, hver, hqa, hz, if_true]
                exact ⟨hinv, hreq⟩
              · simp only [createRequest, hst, hu, ht, hver, hqa, hz, if_true, if_false]
                constructor
                · intro row hrow
                  exact applyReserve_nonneg stationId input.tireId input.quantity
                    db.stationInventory hinv row hrow
                · intro r hr
                  rcases List.mem_append.mp hr with hr | hr
                  · exact hreq r hr
                  · rcases List.mem_singleton.mp hr with rfl
                    exact hq
            · simp only [createRequest, hst, hu, ht, hver, hqa, if_true, if_false]
              exact ⟨hinv, hreq⟩
        · simp only [createRequest, hst, hu, hver, if_false]
          exact ⟨hinv, hreq⟩
  · intro db cache requestId status changedBy note now hinv hreq
    cases hfr : findRequest db.tireRequests requestId with
    | none => simp only [updateRequestStatus, hfr]; exact ⟨hinv, hreq⟩
    | some currentRequest =>
      have hcq : 0 ≤ currentRequest.quantity := hreq _ (findRequest_mem hfr)
      by_cases hg : status = RequestStatus.ANNULE ∧
          currentRequest.status ≠ RequestStatus.ANNULE ∧
          currentRequest.status ≠ RequestStatus.LIVRE
      · cases hsid : currentRequest.stationId with
        | none =>
          simp only [updateRequestStatus, hfr, if_pos hg, hsid]
          exact finishStatusUpdate_nonneg db cache requestId status changedBy note now
            currentRequest db.stationInventory hinv hreq hcq
        | some stationId =>
          cases hincr : incrementInventory stationId currentRequest.tireId
              currentRequest.quantity db.stationInventory with
          | none =>
            simp only [updateRequestStatus, hfr, if_pos hg, hsid, hincr]
            exact ⟨hinv, hreq⟩
          | some inv1 =>
            simp only [updateRequestStatus, hfr, if_pos hg, hsid, hincr]
            exact finishStatusUpdate_nonneg db cache requestId status changedBy note now
              currentRequest inv1 (incrementInventory_nonneg hincr hinv hcq) hreq hcq
      · simp only [updateRequestStatus, hfr, if_neg hg]
        exact finishStatusUpdate_nonneg db cache requestId status changedBy note now
          currentRequest db.stationInventory hinv hreq hcq
  · intro db sellerUserId qrHash now hinv hreq
    cases hv : validateQRCode db sellerUserId qrHash with
    | error e => simp only [completeDelivery, hv]; exact ⟨hinv, hreq⟩
    | ok validation =>
      by_cases hval : validation.valid = true
      · cases hfr : findRequestByHash db.tireRequests qrHash with
        | none =>
          simp only [completeDelivery, hv, hval, hfr, if_true]
          exact ⟨hinv, hreq⟩
        | some request =>
          have hcq : 0 ≤ request.quantity := hreq _ (findRequestByHash_mem hfr)
          simp only [completeDelivery, hv, hval, hfr, if_true]
          constructor
          · intro row hrow
            exact hinv row hrow
          · intro r hr
            rcases mem_setRequestByHash hr with rfl | hr
            · exact hcq
            · exact hreq r hr
      · simp only [completeDelivery, hv, hval, if_false]
        exact ⟨hinv, hreq⟩

theorem engine_preserves_nonneg_stock_witness :
    invNonneg (createRequest exDb exCache "u1" ⟨"t1", some "s1", 2⟩
        2025 "r1" "h1").2.1 ∧
      requestQtyNonneg (createRequest exDb exCache "u1" ⟨"t1", some "s1", 2⟩
        2025 "r1" "h1").2.1 :=
  engine_preserves_nonneg_stock.1 exDb exCache "u1" ⟨"t1", some "s1", 2⟩ 2025 "r1" "h1"
    (by unfold invNonneg; decide) (by unfold requestQtyNonneg; decide) (by decide)

/-- C3: cancelling a request that has a station assigned and is neither
already cancelled nor delivered increments that station's stock for the
request's item by exactly the request's quantity, in the same call that
flips the status; and the restitution happens at most once — a second
cancellation of the same request leaves the inventory untouched. -/
theorem cancellation_restitution_once (db : Db) (cache : Cache) (requestId : String)
    (r : TireRequest) (stationId : String) (row : StationInventory)
    (actor : String) (note : Option String) (now : Int)
    (actor2 : String) (note2 : Option String) (now2 : Int)
    (hr : findRequest db.tireRequests requestId = some r)
    (hst : r.stationId = some stationId)
    (h1 : r.status ≠ RequestStatus.ANNULE)
    (h2 : r.status ≠ RequestStatus.LIVRE)
    (hrow : findInventory db.stationInventory stationId r.tireId = some row) :
    (∃ u, (updateRequestStatus db cache requestId RequestStatus.ANNULE
        actor note now).1 = .ok u ∧ u.status = RequestStatus.ANNULE) ∧
      findInventory (updateRequestStatus db cache requestId RequestStatus.ANNULE
          actor note now).2.1.stationInventory stationId r.tireId =
        some { row with quantity := row.quantity + r.quantity } ∧
      (updateRequestStatus
          (updateRequestStatus db cache requestId RequestStatus.ANNULE
            actor note now).2.1
          (updateRequestStatus db cache requestId RequestStatus.ANNULE
            actor note now).2.2
          requestId RequestStatus.ANNULE actor2 note2 now2).2.1.stationInventory =
        (updateRequestStatus db cache requestId RequestStatus.ANNULE
          actor note now).2.1.stationInventory := by
  obtain ⟨inv2, hincr, hfind2⟩ := incrementInventory_of_find r.quantity hrow
  have hout : updateRequestStatus db cache requestId RequestStatus.ANNULE actor note now =
      finishStatusUpdate db cache requestId RequestStatus.ANNULE actor note now r inv2 := by
    simp only [updateRequestStatus, hr]
    split
    · simp only [hst, hincr]
    · next hcond => exact absurd ⟨by trivial, h1, h2⟩ hcond
  rw [hout]
  refine ⟨⟨writeStatus r RequestStatus.ANNULE now, rfl, rfl⟩, hfind2, ?_⟩
  have hid0 : r.id = requestId := findRequest_id hr
  have hid : (writeStatus r RequestStatus.ANNULE now).id = requestId := hid0
  have hfr2 : findRequest (finishStatusUpdate db cache requestId RequestStatus.ANNULE
        actor note now r inv2).2.1.tireRequests requestId =
      some (writeStatus r RequestStatus.ANNULE now) :=
    findRequest_setRequest hr hid
  simp only [updateRequestStatus, hfr2]
  split
  · next hcond => exact absurd rfl hcond.2.1
  · rfl

theorem cancellation_restitution_once_witness :
    (∃ u, (updateRequestStatus exDbPending exCache "r1" RequestStatus.ANNULE
        "admin" none 9).1 = .ok u ∧ u.status = RequestStatus.ANNULE) ∧
      findInventory (updateRequestStatus exDbPending exCache "r1" RequestStatus.ANNULE
          "admin" none 9).2.1.stationInventory "s1" "t1" =
        some { stationId := "s1", tireId := "t1", quantity := (7 : Int) + 2 } ∧
      (updateRequestStatus
          (updateRequestStatus exDbPending exCache "r1" RequestStatus.ANNULE
            "admin" none 9).2.1
          (updateRequestStatus exDbPending exCache "r1" RequestStatus.ANNULE
            "admin" none 9).2.2
          "r1" RequestStatus.ANNULE "admin" none 10).2.1.stationInventory =
        (updateRequestStatus exDbPending exCache "r1" RequestStatus.ANNULE
          "admin" none 9).2.1.stationInventory :=
  cancellation_restitution_once exDbPending exCache "r1"
    { id := "r1", userId := "u1", tireId := "t1", stationId := some "s1",
      status := .EN_ATTENTE, qrCodeHash := "h1", qrUsed := false, year := 2025,
      quantity := 2, deliveredAt := none }
    "s1" ⟨"s1", "t1", 7⟩ "admin" none 9 "admin" none 10
    (by decide) (by decide) (by decide) (by decide) (by decide)

/-- C4 counterexample: on a store whose only request is DELIVERED, the
transition to CANCELLED is accepted — it returns the updated request and
mutates the store (status flipped, history appended) — instead of failing
with InvalidTransition and mutating nothing. -/
theorem cancel_after_delivery_accepted_cex :
    (updateRequestStatus exDbDelivered exCache "r1" RequestStatus.ANNULE
        "admin" none 9).1 =
      .ok { exDeliveredReq with status := RequestStatus.ANNULE } ∧
      (updateRequestStatus exDbDelivered exCache "r1" RequestStatus.ANNULE
        "admin" none 9).2.1 ≠ exDbDelivered :=
  ⟨rfl, by decide⟩

/-- C4 (amended): transitioning a DELIVERED (or already CANCELLED) request
to CANCELLED is accepted rather than rejected: the call returns the request
with status CANCELLED and appends a history event, but performs no stock
restitution — the inventory is unchanged.  No InvalidTransition rejection
exists in the code. -/
theorem cancel_terminal_accepted_no_restitution (db : Db) (cache : Cache)
    (requestId : String) (r : TireRequest) (actor : String) (note : Option String)
    (now : Int)
    (hr : findRequest db.tireRequests requestId = some r)
    (hterm : r.status = RequestStatus.LIVRE ∨ r.status = RequestStatus.ANNULE) :
    (updateRequestStatus db cache requestId RequestStatus.ANNULE actor note now).1 =
        .ok { r with status := RequestStatus.ANNULE } ∧
      (updateRequestStatus db cache requestId RequestStatus.ANNULE actor note
        now).2.1.stationInventory = db.stationInventory ∧
      (updateRequestStatus db cache requestId RequestStatus.ANNULE actor note
        now).2.1.tireRequests =
        setRequest { r with status := RequestStatus.ANNULE } db.tireRequests ∧
      (updateRequestStatus db cache requestId RequestStatus.ANNULE actor note
        now).2.1.statusHistory =
        db.statusHistory ++ [⟨requestId, RequestStatus.ANNULE, actor, note⟩] := by
  simp only [updateRequestStatus, hr]
  split
  · next hcond =>
    rcases hterm with h | h
    · exact absurd h hcond.2.2
    · exact absurd h hcond.2.1
  · exact ⟨rfl, rfl, rfl, rfl⟩

theorem cancel_terminal_accepted_no_restitution_witness :
    (updateRequestStatus exDbDelivered exCache "r1" RequestStatus.ANNULE
        "admin" none 9).1 =
        .ok { exDeliveredReq with status := RequestStatus.ANNULE } ∧
      (updateRequestStatus exDbDelivered exCache "r1" RequestStatus.ANNULE
        "admin" none 9).2.1.stationInventory = exDbDelivered.stationInventory ∧
      (updateRequestStatus exDbDelivered exCache "r1" RequestStatus.ANNULE
        "admin" none 9).2.1.tireRequests =
        setRequest { exDeliveredReq with status := RequestStatus.ANNULE }
          exDbDelivered.tireRequests ∧
      (updateRequestStatus exDbDelivered exCache "r1" RequestStatus.ANNULE
        "admin" none 9).2.1.statusHistory =
        exDbDelivered.statusHistory ++ [⟨"r1", RequestStatus.ANNULE, "admin", none⟩] :=
  cancel_terminal_accepted_no_restitution exDbDelivered exCache "r1" exDeliveredReq
    "admin" none 9 (by decide) (Or.inl rfl)

/-- C5: transitioning a request to DELIVERED stamps the delivery timestamp
and consumes the token (`deliveredAt` set, `qrUsed = true`), both through
`updateRequestStatus` and through the QR delivery path `completeDelivery`;
and a repeated delivery attempt on the same token — a request whose token is
already consumed — fails with the already-used error and mutates nothing. -/
theorem delivery_consumes_token_single_use :
    (∀ db cache requestId r actor note now,
      findRequest db.tireRequests requestId = some r →
      (updateRequestStatus db cache requestId RequestStatus.LIVRE actor note now).1 =
          .ok { r with status := RequestStatus.LIVRE, qrUsed := true,
                       deliveredAt := some now } ∧
        findRequest (updateRequestStatus db cache requestId RequestStatus.LIVRE
            actor note now).2.1.tireRequests requestId =
          some { r with status := RequestStatus.LIVRE, qrUsed := true,
                        deliveredAt := some now }) ∧
    (∀ db sellerUserId qrHash seller r now,
      findSeller db.sellers sellerUserId = some seller →
      findRequestByHash db.tireRequests qrHash = some r →
      r.qrUsed = false →
      r.status = RequestStatus.PRET →
      r.stationId = some seller.stationId →
      (completeDelivery db sellerUserId qrHash now).1 =
        .ok { r with status := RequestStatus.LIVRE, qrUsed := true,
                     deliveredAt := some now }) ∧
    (∀ db sellerUserId qrHash seller r now,
      findSeller db.sellers sellerUserId = some seller →
      findRequestByHash db.tireRequests qrHash = some r →
      r.qrUsed = true →
      completeDelivery db sellerUserId qrHash now =
        (.error (.qrInvalid "QR code has already been used"), db)) := by
  refine ⟨?_, ?_, ?_⟩
  · intro db cache requestId r actor note now hr
    have hg : ¬ (RequestStatus.LIVRE = RequestStatus.ANNULE ∧
        r.status ≠ RequestStatus.ANNULE ∧ r.status ≠ RequestStatus.LIVRE) :=
      fun h => RequestStatus.noConfusion h.1
    have hid0 : r.id = requestId := findRequest_id hr
    have hid : (writeStatus r RequestStatus.LIVRE now).id = requestId := hid0
    constructor
    · simp only [updateRequestStatus, hr, if_neg hg]
      rfl
    · have := findRequest_setRequest hr hid
      simp only [updateRequestStatus, hr, if_neg hg]
      exact this
  · intro db sellerUserId qrHash seller r now hs hfr hused hstat hsta
    have hv : validateQRCode db sellerUserId qrHash = .ok ⟨true, none, some r⟩ := by
      simp [validateQRCode, hs, hfr, hused, hstat, hsta]
    simp only [completeDelivery, hv, hfr, if_true]
  · intro db sellerUserId qrHash seller r now hs hfr hused
    have hv : validateQRCode db sellerUserId qrHash =
        .ok ⟨false, some "QR code has already been used", some r⟩ := by
      simp [validateQRCode, hs, hfr, hused]
    simp only [completeDelivery, hv]
    rfl

theorem delivery_consumes_token_single_use_witness :
    ((updateRequestStatus exDbReady exCache "r1" RequestStatus.LIVRE
        "sel1" none 42).1 =
          .ok { exReadyReq with status := RequestStatus.LIVRE, qrUsed := true,
                                deliveredAt := some 42 } ∧
      findRequest (updateRequestStatus exDbReady exCache "r1" RequestStatus.LIVRE
          "sel1" none 42).2.1.tireRequests "r1" =
        some { exReadyReq with status := RequestStatus.LIVRE, qrUsed := true,
                               deliveredAt := some 42 }) ∧
      (completeDelivery exDbReady "sel1" "h1" 42).1 =
        .ok { exReadyReq with status := RequestStatus.LIVRE, qrUsed := true,
                              deliveredAt := some 42 } ∧
      completeDelivery exDbDelivered "sel1" "h1" 43 =
        (.error (.qrInvalid "QR code has already been used"), exDbDelivered) :=
  ⟨delivery_consumes_token_single_use.1 exDbReady exCache "r1" exReadyReq
      "sel1" none 42 (by decide),
    delivery_consumes_token_single_use.2.1 exDbReady "sel1" "h1" ⟨"sel1", "s1"⟩
      exReadyReq 42 (by decide) (by decide) (by decide) (by decide) (by decide),
    delivery_consumes_token_single_use.2.2 exDbDelivered "sel1" "h1" ⟨"sel1", "s1"⟩
      exDeliveredReq 43 (by decide) (by decide) (by decide)⟩

/-- C10: cancelling a request that has no station assigned updates the
status, appends the history event, and touches no StationInventory row — the
whole inventory table (and the cache) is unchanged. -/
theorem cancel_without_station_frame (db : Db) (cache : Cache) (requestId : String)
    (r : TireRequest) (actor : String) (note : Option String) (now : Int)
    (hr : findRequest db.tireRequests requestId = some r)
    (hsid : r.stationId = none) :
    (updateRequestStatus db cache requestId RequestStatus.ANNULE actor note now).1 =
        .ok { r with status := RequestStatus.ANNULE } ∧
      (updateRequestStatus db cache requestId RequestStatus.ANNULE actor note
        now).2.1.stationInventory = db.stationInventory ∧
      findRequest (updateRequestStatus db cache requestId RequestStatus.ANNULE actor note
          now).2.1.tireRequests requestId =
        some { r with status := RequestStatus.ANNULE } ∧
      (updateRequestStatus db cache requestId RequestStatus.ANNULE actor note
        now).2.1.statusHistory =
        db.statusHistory ++ [⟨requestId, RequestStatus.ANNULE, actor, note⟩] ∧
      (updateRequestStatus db cache requestId RequestStatus.ANNULE actor note
        now).2.2 = cache := by
  have hid0 : r.id = requestId := findRequest_id hr
  have hid : (writeStatus r RequestStatus.ANNULE now).id = requestId := hid0
  have hout : updateRequestStatus db cache requestId RequestStatus.ANNULE actor note now =
      finishStatusUpdate db cache requestId RequestStatus.ANNULE actor note now r
        db.stationInventory := by
    simp only [updateRequestStatus, hr]
    split
    · simp only [hsid]
    · rfl
  rw [hout]
  refine ⟨rfl, rfl, findRequest_setRequest hr hid, rfl, ?_⟩
  simp only [finishStatusUpdate, writeStatus]
  split
  · rw [hsid]
  · rfl

theorem cancel_without_station_frame_witness :
    (updateRequestStatus exDbNoStation exCache "r1" RequestStatus.ANNULE
        "admin" none 9).1 =
        .ok { exNoStationReq with status := RequestStatus.ANNULE } ∧
      (updateRequestStatus exDbNoStation exCache "r1" RequestStatus.ANNULE
        "admin" none 9).2.1.stationInventory = exDbNoStation.stationInventory ∧
      findRequest (updateRequestStatus exDbNoStation exCache "r1" RequestStatus.ANNULE
          "admin" none 9).2.1.tireRequests "r1" =
        some { exNoStationReq with status := RequestStatus.ANNULE } ∧
      (updateRequestStatus exDbNoStation exCache "r1" RequestStatus.ANNULE
        "admin" none 9).2.1.statusHistory =
        exDbNoStation.statusHistory ++ [⟨"r1", RequestStatus.ANNULE, "admin", none⟩] ∧
      (updateRequestStatus exDbNoStation exCache "r1" RequestStatus.ANNULE
        "admin" none 9).2.2 = exCache :=
  cancel_without_station_frame exDbNoStation exCache "r1" exNoStationReq
    "admin" none 9 (by decide) (by decide)

end Naftal
